import Mathlib

/-!
Shallow embedding of the calendrical core of the zhouyi repository
(`src/js/bazi.js`, `src/js/fengshui-calc.js`, `src/unnamed/part_003`)
together with theorems settling the frozen claims about it.

Conventions of the embedding:
* JavaScript numbers are modelled as `Int`.  Every floating-point value in
  the translated code is a decimal with at most four fractional digits that
  is only added, multiplied by integers, compared and floored, so it is
  carried exactly as a scaled integer; each definition's doc comment states
  the scaling used.  `Math.floor (x / b)` for a positive integer `b` is
  integer division `x / b` (`Int.ediv`, which rounds toward minus infinity
  for positive divisors).
* The JavaScript `%` operator (truncated remainder) is modelled by
  `Int.tmod`, written `jsMod` below.
* The `while` loop that pushes a day overflow across month boundaries is
  modelled by fuel-bounded recursion with ample fuel.
* Functions of `part_003` that consume the trigonometric Newton solver
  `calcSolarTerm`/`getJieqi` (floating point) are parameterised by the term
  table that solver would produce, so theorems about them hold for every
  possible table.
-/

namespace Zhouyi

/-- A solar-term timestamp as produced by the calendar code: Gregorian
year, month and day plus hour and minute. -/
structure TermDate where
  year : Int
  month : Int
  day : Int
  hour : Int
  minute : Int
deriving DecidableEq, Repr

/-- Truncated integer remainder: the semantics of the JavaScript `%`. -/
def jsMod (a b : Int) : Int := Int.tmod a b

/-- Gender argument of the bazi entry points (`'m' | 'f'` in the source). -/
inductive Gender where
  | male
  | female
deriving DecidableEq, Repr

/-- Stem/branch index pairs of the four pillars returned by
`calcBaziPillars` (year, month, day, hour in order). -/
structure Pillars where
  yearP : Int × Int
  monthP : Int × Int
  dayP : Int × Int
  hourP : Int × Int
deriving DecidableEq, Repr

end Zhouyi

namespace BaziJs

open Zhouyi

/-- Base `(month, day, hour, minute)` of each of the 24 solar terms for the
year 2000 (bazi.js lines 47-72), indexed in the 小寒-first order. -/
def termBase : List (Int × Int × Int × Int) :=
  [(1, 5, 15, 0), (1, 20, 9, 0), (2, 4, 3, 14), (2, 19, 0, 29),
   (3, 5, 23, 29), (3, 20, 23, 34), (4, 4, 19, 42), (4, 20, 2, 20),
   (5, 5, 15, 32), (5, 21, 3, 43), (6, 5, 12, 32), (6, 21, 7, 0),
   (7, 7, 5, 5), (7, 22, 22, 30), (8, 7, 15, 39), (8, 23, 4, 34),
   (9, 7, 12, 8), (9, 23, 3, 55), (10, 8, 9, 21), (10, 23, 4, 15),
   (11, 7, 2, 20), (11, 22, 4, 36), (12, 7, 1, 10), (12, 22, 0, 28)]

/-- Per-term empirical day offsets (bazi.js lines 85-90: 5.59, 20.12, …),
held exactly in units of 1/10000 of a day. -/
def termOffsets4 : List Int :=
  [55900, 201200, 38700, 198300, 56300, 206500,
   56000, 208800, 63900, 213700, 59600, 219500,
   79300, 231400, 75000, 230400, 86900, 234200,
   86400, 239600, 78600, 226000, 71800, 219400]

/-- Gregorian leap-year test exactly as written in bazi.js line 79. -/
def isLeapJS (y : Int) : Bool :=
  (jsMod y 4 == 0 && jsMod y 100 != 0) || jsMod y 400 == 0

/-- The `monthDays` array of bazi.js line 95, indexed by `month - 1` as in
the source; only indices for months 1..12 are ever reached. -/
def monthDays (leap : Bool) (month : Int) : Int :=
  [31, if leap then 29 else 28, 31, 30, 31, 30,
   31, 31, 30, 31, 30, 31].getD (month - 1).toNat 0

/-- The day-overflow `while` loop of `getDaysFromNewYear` (bazi.js lines
102-109): subtract the current month's length, step the month, and reset a
month of 13 back to 1.  Fuel-bounded; every input reached by the claims
below exits the loop long before the fuel runs out. -/
def wrapMD (leap : Bool) : Nat → Int → Int → Int × Int
  | 0, month, day => (month, day)
  | fuel + 1, month, day =>
    let md := monthDays leap month
    if day > md then
      wrapMD leap fuel (if month + 1 > 12 then 1 else month + 1) (day - md)
    else (month, day)

/-- The body of `getDaysFromNewYear` (bazi.js lines 43-112).  The source
computes `dayOffset = y2000*0.2422 + y2000*0.0002 + termOffsets[i]` and
then `Math.floor(termData.day + dayOffset)`; the offset is carried here in
exact units of 1/10000 of a day, so that floor is
`base day + dayOffset4 / 10000`.  The floored day is then pushed across
month boundaries by the overflow loop.  Returns
`(month, day, hour, minute)`. -/
def getDaysFromNewYear (y : Int) (termIndex : Nat) : Int × Int × Int × Int :=
  let y2000 : Int := y - 2000
  let base := termBase.getD termIndex (1, 1, 0, 0)
  let dayOffset4 : Int := y2000 * 2422 + y2000 * 2 + termOffsets4.getD termIndex 0
  let day0 : Int := base.2.1 + dayOffset4 / 10000
  let md := wrapMD (isLeapJS y) 1000 base.1 day0
  (md.1, md.2, base.2.2.1, base.2.2.2)

/-- One entry of the `getSolarTerms` result (bazi.js lines 118-128): the
term date with a year attached; the `month > 12` branch mirrors the
source's cross-year adjustment. -/
def getSolarTerm (y : Int) (termIndex : Nat) : TermDate :=
  let r := getDaysFromNewYear y termIndex
  if r.1 > 12 then ⟨y + 1, r.1 - 12, r.2.1, r.2.2.1, r.2.2.2⟩
  else ⟨y, r.1, r.2.1, r.2.2.1, r.2.2.2⟩

/-- The full `getSolarTerms(year)` table (bazi.js lines 37-131), as the
list of its 24 entries in insertion (term-index) order. -/
def getSolarTermsList (y : Int) : List TermDate :=
  (List.range 24).map (getSolarTerm y)

/-- The `year*10000 + month*100 + day` comparison key used throughout
`getNearestSolarTerm`. -/
def tdNum (t : TermDate) : Int := t.year * 10000 + t.month * 100 + t.day

/-- Full-precision chronological key of a term timestamp (year, month,
day, hour, minute lexicographically). -/
def termKey (t : TermDate) : Int :=
  (((t.year * 100 + t.month) * 100 + t.day) * 100 + t.hour) * 100 + t.minute

/-- Result record of `getNearestSolarTerm`; term names are represented by
their index in the 小寒-first ordering. -/
structure NearTerms where
  prevTerm : Option Nat
  prevDate : Option TermDate
  nextTerm : Option Nat
  nextDate : Option TermDate
deriving DecidableEq, Repr

/-- The previous-year check of `getNearestSolarTerm` (bazi.js lines
153-164): look at 大雪 (22) and 冬至 (23) of `year - 1` in that order and
keep the last one whose date key is at most `dateNum`; the source's
`td.year || year - 1` fallback for a falsy year field is kept. -/
def prevYearScan (y dateNum : Int) : Option (Nat × TermDate) :=
  let step := fun (acc : Option (Nat × TermDate)) (i : Nat) =>
    let td := getSolarTerm (y - 1) i
    let tdy := if td.year = 0 then y - 1 else td.year
    if tdy * 10000 + td.month * 100 + td.day ≤ dateNum then some (i, td) else acc
  step (step none 22) 23

/-- The in-year scan of `getNearestSolarTerm` (bazi.js lines 167-182):
walk the 24 terms in listed order, keep updating `prev` while the term key
is at most `dateNum`, and break at the first term beyond it. -/
def scanTerms (dateNum : Int) : Nat → List TermDate → Option (Nat × TermDate) →
    Option (Nat × TermDate) × Option (Nat × TermDate)
  | _, [], prev => (prev, none)
  | i, td :: rest, prev =>
    if tdNum td ≤ dateNum then scanTerms dateNum (i + 1) rest (some (i, td))
    else (prev, some (i, td))

/-- `getNearestSolarTerm(year, month, day)` (bazi.js lines 140-199).  When
the in-year scan finds no later term the source falls back to the first
existing entry of 小寒/大寒 of `year + 1`; 小寒 always exists in the
table, so the fallback always succeeds and is written as `Option.getD`. -/
def getNearestSolarTerm (y m d : Int) : NearTerms :=
  let dateNum := y * 10000 + m * 100 + d
  let s := scanTerms dateNum 0 (getSolarTermsList y) (prevYearScan y dateNum)
  let next := s.2.getD (0, getSolarTerm (y + 1) 0)
  ⟨s.1.map Prod.fst, s.1.map Prod.snd, some next.1, some next.2⟩

/-- The month-index decision chain of `getMonthFromSolarTerm` (bazi.js
lines 221-251), keyed by the previous term's index in the 小寒-first
ordering (立春 = 2, 惊蛰 = 4, …, 冬至 = 23); the final default is the
source's `Math.floor((month - 1) / 2)`. -/
def termToMonthIndex (m : Int) (t : Option Nat) : Int :=
  if t = some 2 then 0
  else if t = some 4 then 1
  else if t = some 6 then 2
  else if t = some 8 then 3
  else if t = some 10 then 4
  else if t = some 12 then 5
  else if t = some 14 then 6
  else if t = some 16 then 7
  else if t = some 18 then 8
  else if t = some 20 then 9
  else if t = some 22 then 10
  else if t = some 0 then 11
  else if t = some 3 ∨ t = some 5 then 0
  else if t = some 7 then 1
  else if t = some 9 then 3
  else if t = some 11 then 4
  else if t = some 13 then 5
  else if t = some 15 then 6
  else if t = some 17 then 7
  else if t = some 19 then 8
  else if t = some 21 then 9
  else if t = some 23 then 10
  else if t = some 1 then 11
  else (m - 1) / 2

/-- The five-tiger table `[2, 4, 6, 8, 0, 2, 4, 6, 8, 0]` of bazi.js line
257, indexed by the normalised year stem (always 0..9 at the call sites). -/
def fiveTigerBase (ysi : Int) : Int :=
  [2, 4, 6, 8, 0, 2, 4, 6, 8, 0].getD ysi.toNat 0

/-- Month pillar record produced by bazi.js `getMonthFromSolarTerm`; the
term name is represented by its index. -/
structure MonthPillar where
  monthStemIdx : Int
  monthBranchIdx : Int
  termIdx : Option Nat
deriving DecidableEq, Repr

/-- `getMonthFromSolarTerm(year, month, day, hour, minute)` (bazi.js lines
210-271); the `hour`/`minute` parameters are unused in the source and
omitted here.  `monthBranchIdx = (monthIndex + 2) % 12` is the branch in
the canonical 子-first indexing; the source's display name is drawn from a
寅-first name array at the same index. -/
def getMonthFromSolarTerm (y m d : Int) : MonthPillar :=
  let nt := getNearestSolarTerm y m d
  let monthIndex := termToMonthIndex m nt.prevTerm
  let yearStemIdx := jsMod (jsMod (y - 4) 10 + 10) 10
  let monthStemBase := fiveTigerBase yearStemIdx
  ⟨jsMod (monthStemBase + monthIndex) 10, jsMod (monthIndex + 2) 12, nt.prevTerm⟩

/-- Year pillar record produced by bazi.js `getYearFromSolarTerm`. -/
structure YearPillar where
  yearStemIdx : Int
  yearBranchIdx : Int
  actualYear : Int
deriving DecidableEq, Repr

/-- `getYearFromSolarTerm(year, month, day)` (bazi.js lines 280-306): use
the previous year when the birth date key is strictly below the 立春 date
key.  The `!lichun` fallback of the source is unreachable here because the
term table is total. -/
def getYearFromSolarTerm (y m d : Int) : YearPillar :=
  let lichun := getSolarTerm y 2
  let birthDate := y * 10000 + m * 100 + d
  let lichunDate := lichun.year * 10000 + lichun.month * 100 + lichun.day
  let actualYear := if birthDate < lichunDate then y - 1 else y
  ⟨jsMod (jsMod (actualYear - 4) 10 + 10) 10,
   jsMod (jsMod (actualYear - 4) 12 + 12) 12, actualYear⟩

/-- Days since the Unix epoch of the proleptic Gregorian date `(y, m, d)`
with `m` in 1..12 and an arbitrary integer `d` (JavaScript `new Date`
rolls day overflow and underflow linearly), used to model the `Date`
subtraction in `calcDaYunPrecise`. -/
def daysFromCivil (y m d : Int) : Int :=
  let y2 := if m ≤ 2 then y - 1 else y
  let era := y2 / 400
  let yoe := y2 - era * 400
  let mp := if m ≤ 2 then m + 9 else m - 3
  let doy := (153 * mp + 2) / 5 + d - 1
  let doe := yoe * 365 + yoe / 4 - yoe / 100 + yoe / 400 + doy
  era * 146097 + doe - 719468

/-- Minutes since the Unix epoch of a local timestamp, modelling
JavaScript `new Date(y, m - 1, d, h, mi).getTime()` up to the constant
local-time offset, which cancels in every difference the source takes. -/
def dateMinutes (y m d h mi : Int) : Int :=
  daysFromCivil y m d * 1440 + h * 60 + mi

/-- Result record of `calcDaYunPrecise`: onset age, direction as a Boolean
(`true` = 顺行/forward), the rounded day distances, and the two bounding
term indices. -/
structure DaYun where
  startAge : Int
  forward : Bool
  daysToNext : Int
  daysFromPrev : Int
  prevTerm : Option Nat
  nextTerm : Option Nat
deriving DecidableEq, Repr

/-- `calcDaYunPrecise` (bazi.js lines 333-383; part_003 lines 472-522 are
an identical copy).  The real-number steps of the source are carried out
exactly on minute-scaled integers: with `t` minutes to the bounding term,
`daysToNext = t / 1440` days, so `Math.round(daysToNext / 3 * 10)` is
`⌊t/432 + 1/2⌋ = (2*t + 432) / 864` and `Math.round(daysToNext)` is
`(2*t + 1440) / 2880`; the clamp `[1, 20]` on the tenth-scaled age `r/10`
compares `r` against 10 and 200, and the final `Math.floor` is `r / 10`.
In the fallback branch the source returns only `startAge`/`direction`; the
remaining fields are zeroed here. -/
def calcDaYunPrecise (y m d h mi : Int) (g : Gender) (yearStemIdx : Int) : DaYun :=
  let nt := getNearestSolarTerm y m d
  match nt.prevDate, nt.nextDate with
  | some prevDate, some nextDate =>
    let birth := dateMinutes y m d h mi
    let nextY := if nextDate.year = 0 then y else nextDate.year
    let nextT := dateMinutes nextY nextDate.month nextDate.day nextDate.hour nextDate.minute
    let t0 := nextT - birth
    let tNext := if t0 < 0 then t0 + 365 * 1440 else t0
    let prevY := if prevDate.year = 0 then y else prevDate.year
    let prevT := dateMinutes prevY prevDate.month prevDate.day prevDate.hour prevDate.minute
    let p0 := birth - prevT
    let tPrev := if p0 < 0 then p0 + 365 * 1440 else p0
    let isYangYear : Bool := jsMod yearStemIdx 2 == 0
    let isMale : Bool := match g with
      | Gender.male => true
      | Gender.female => false
    let forward : Bool := (isYangYear && isMale) || (!isYangYear && !isMale)
    let chosen := if forward then tNext else tPrev
    let r := (2 * chosen + 432) / 864
    let startAge := if r < 10 then 1 else if r > 200 then 20 else r / 10
    ⟨startAge, forward, (2 * tNext + 1440) / 2880, (2 * tPrev + 1440) / 2880,
     nt.prevTerm, nt.nextTerm⟩
  | _, _ => ⟨3, true, 0, 0, nt.prevTerm, nt.nextTerm⟩

/-- Twice the value of bazi.js `getJulianDay` (lines 556-561).  The source
value is the half-integer
`Math.floor(365.25*(y+4716)) + Math.floor(30.6001*(m+1)) + day + B - 1524.5`,
so doubling keeps it exactly in `Int`; the two inner floors are the exact
divisions `36525*(y+4716) / 100` and `306001*(m+1) / 10000`. -/
def getJulianDayTwice (year month day : Int) : Int :=
  let p := if month ≤ 2 then (year - 1, month + 12) else (year, month)
  let A := p.1 / 100
  let B := 2 - A + A / 4
  2 * (36525 * (p.1 + 4716) / 100) + 2 * (306001 * (p.2 + 1) / 10000) +
    2 * day + 2 * B - 3049

/-- `Math.floor(getJulianDay(year, month, day))` as used by bazi.js
`calcBaziPillars` line 589. -/
def jdFloor (year month day : Int) : Int := getJulianDayTwice year month day / 2

/-- The five-rat table `[0, 2, 4, 6, 8]` of bazi.js line 597, indexed by
`dayStemIdx % 5` (always 0..4 at the call site). -/
def fiveRatBase (i : Int) : Int := [0, 2, 4, 6, 8].getD i.toNat 0

/-- Chart value produced by bazi.js `calcBaziPillars` (lines 572-688): the
four stem/branch index pairs, the eight luck pillars, and the luck onset
data.  The purely presentational fields of the source result (element
strings, 纳音 names, 神煞 list, element counts) are not referenced by any
claim and are omitted. -/
structure BaziResult where
  pillars : Pillars
  daYun : List (Int × Int)
  startAge : Int
  forward : Bool
deriving DecidableEq, Repr

/-- bazi.js `calcBaziPillars(year, month, day, hour, gender)` (lines
572-688): year pillar from `getYearFromSolarTerm`, month pillar from
`getMonthFromSolarTerm` (called with the input year), day pillar from the
floored Julian day with the `+49`/`+1` offsets, hour pillar from the
five-rat table, and the eight luck pillars stepped from the month pillar
in the direction fixed by `calcDaYunPrecise`. -/
def calcBaziPillars (year month day hour : Int) (g : Gender) : BaziResult :=
  let yi := getYearFromSolarTerm year month day
  let mi := getMonthFromSolarTerm year month day
  let jd := jdFloor year month day
  let dayStemIdx := jsMod (jsMod (jd + 49) 10 + 10) 10
  let dayBranchIdx := jsMod (jsMod (jd + 1) 12 + 12) 12
  let hourBase := fiveRatBase (jsMod dayStemIdx 5)
  let hourStemIdx := jsMod (hourBase + hour) 10
  let dy := calcDaYunPrecise year month day 0 0 g yi.yearStemIdx
  let daYunList := (List.range 8).map (fun i =>
    let offset : Int := if dy.forward then (i : Int) + 1 else -((i : Int) + 1)
    (jsMod (mi.monthStemIdx + offset + 100) 10,
     jsMod (mi.monthBranchIdx + offset + 120) 12))
  ⟨⟨(yi.yearStemIdx, yi.yearBranchIdx), (mi.monthStemIdx, mi.monthBranchIdx),
    (dayStemIdx, dayBranchIdx), (hourStemIdx, hour)⟩,
   daYunList, dy.startAge, dy.forward⟩

/-- The bazi entry point `calcBazi` (bazi.js lines 816-830) restricted to
its computational content: the only validation is
`!year || year < 1900 || year > 2100` (the `!year` test catches the falsy
year 0), after which the full chart is computed unconditionally; month,
day and hour are never checked. -/
def calcBazi (year month day hour : Int) (g : Gender) : Option BaziResult :=
  if year = 0 ∨ year < 1900 ∨ year > 2100 then none
  else some (calcBaziPillars year month day hour g)

end BaziJs

namespace Part003

open Zhouyi

/-- part_003 `getDayStemBranch` (lines 688-701): integer Julian Day via the
Meeus formula with the `- 1524` constant and the explicit base
`2451551` (2000-01-07 = 甲子 per the source comment). -/
def getDayStemBranch (year month day : Int) : Int × Int :=
  let p := if month ≤ 2 then (year - 1, month + 12) else (year, month)
  let A := p.1 / 100
  let B := 2 - A + A / 4
  let JD := 36525 * (p.1 + 4716) / 100 + 306001 * (p.2 + 1) / 10000 + day + B - 1524
  (jsMod (jsMod (JD - 2451551) 10 + 10) 10,
   jsMod (jsMod (JD - 2451551) 12 + 12) 12)

/-- part_003 `getJulianDay` (lines 1167-1172): the all-integer Julian Day
Number formula. -/
def getJulianDay (year month day : Int) : Int :=
  let a := (14 - month) / 12
  let y2 := year + 4800 - a
  let m2 := month + 12 * a - 3
  day + (153 * m2 + 2) / 5 + 365 * y2 + y2 / 4 - y2 / 100 + y2 / 400 - 32045

/-- Day pillar of part_003's later `calcBaziPillars` (lines 1201-1203):
its `getJulianDay` with the `+49`/`+1` offsets. -/
def dayPillar (year month day : Int) : Int × Int :=
  let jd := getJulianDay year month day
  (jsMod (jsMod (jd + 49) 10 + 10) 10, jsMod (jsMod (jd + 1) 12 + 12) 12)

/-- `HOUR_START` (part_003 line 647): starting hour of each of the twelve
two-hour branches. -/
def HOUR_START : List Int := [23, 1, 3, 5, 7, 9, 11, 13, 15, 17, 19, 21]

/-- part_003 `getYearStemBranch` (lines 651-673), parameterised by the
jieqi table `terms` that `getJieqi(year)` (the floating-point Newton
solver) would return; `terms[0]` is 立春.  The optional `hourBranchIdx`
mirrors the source's `undefined` checks. -/
def getYearStemBranch (terms : List TermDate) (year month day : Int)
    (hourBranchIdx : Option Int) : Int × Int :=
  let lichun := terms.getD 0 ⟨0, 0, 0, 0, 0⟩
  let birthMinute := match hourBranchIdx with
    | some i => HOUR_START.getD i.toNat 0 * 60
    | none => 0
  let lichunMinute := lichun.hour * 60 + lichun.minute
  let bornBefore :=
    month < lichun.month ∨ (month = lichun.month ∧ day < lichun.day) ∨
      (month = lichun.month ∧ day = lichun.day ∧ hourBranchIdx.isSome ∧
        birthMinute < lichunMinute)
  let y := if bornBefore then year - 1 else year
  (jsMod (jsMod (y - 4) 10 + 10) 10, jsMod (jsMod (y - 4) 12 + 12) 12)

/-- `JIEQI_BRANCH` (part_003 line 617): canonical branch index of the
month opened by each of the twelve 节 terms. -/
def JIEQI_BRANCH : List Int := [2, 3, 4, 5, 6, 7, 8, 9, 10, 11, 0, 1]

/-- The per-term pass test of `getMonthBranchIdx` (part_003 lines
632-636). -/
def isAfterTerm (month day : Int) (hour : Option Int) (t : TermDate) : Bool :=
  month > t.month || (month == t.month && day > t.day) ||
    (month == t.month && day == t.day && hour.isSome &&
      hour.getD 0 * 60 ≥ t.hour * 60 + t.minute)

/-- The scan loop of `getMonthBranchIdx` (part_003 lines 628-642): walk
the twelve 节 terms in order, remember the index of the last one already
passed, and break at the first one not yet passed. -/
def lastPassedGo (month day : Int) (hour : Option Int) :
    List TermDate → Nat → Nat → Nat
  | [], _, last => last
  | t :: rest, i, last =>
    if isAfterTerm month day hour t then lastPassedGo month day hour rest (i + 1) i
    else last

/-- part_003 `getMonthBranchIdx` (lines 615-644), parameterised by the
twelve-entry jieqi table. -/
def getMonthBranchIdx (terms : List TermDate) (month day : Int)
    (hour : Option Int) : Int :=
  let lichun := terms.getD 0 ⟨0, 0, 0, 0, 0⟩
  if month < lichun.month ∨ (month = lichun.month ∧ day < lichun.day) then
    JIEQI_BRANCH.getD 11 0
  else
    JIEQI_BRANCH.getD (lastPassedGo month day hour terms 0 0) 0

/-- The five-tiger bases `[2, 4, 6, 8, 0]` of part_003 line 679. -/
def WUHU_BASES : List Int := [2, 4, 6, 8, 0]

set_option linter.unusedVariables false in
/-- part_003 `getMonthStemBranch` (lines 676-685), parameterised by the
jieqi table; the source's `year` argument is only forwarded to
`getJieqi`, which the table parameter replaces, so it is unused here.
Note the source passes its `hourBranchIdx` argument straight through as
the `hour` of `getMonthBranchIdx`. -/
def getMonthStemBranch (terms : List TermDate) (yearStemIdx year month day : Int)
    (hourBranchIdx : Option Int) : Int × Int :=
  let branchIdx := getMonthBranchIdx terms month day hourBranchIdx
  let base := WUHU_BASES.getD (jsMod yearStemIdx 5).toNat 0
  let offset := jsMod (branchIdx - 2 + 12) 12
  (jsMod (base + offset) 10, branchIdx)

/-- The five-rat bases `[0, 2, 4, 6, 8]` of part_003 line 705. -/
def WUSHU_BASES : List Int := [0, 2, 4, 6, 8]

/-- part_003 `getHourStemBranch` (lines 704-709). -/
def getHourStemBranch (dayStemIdx hourBranchIdx : Int) : Int × Int :=
  let base := WUSHU_BASES.getD (jsMod dayStemIdx 5).toNat 0
  (jsMod (base + hourBranchIdx) 10, hourBranchIdx)

/-- part_003's earlier `calcBaziPillars` (lines 712-730), parameterised by
the jieqi table consumed by its year and month helpers; only the
stem/branch index pairs are kept (the trailing `.map` of the source adds
display strings). -/
def calcBaziPillars (terms : List TermDate) (year month day : Int)
    (hourBranchIdx : Int) : Pillars :=
  let yr := getYearStemBranch terms year month day (some hourBranchIdx)
  let mo := getMonthStemBranch terms yr.1 year month day (some hourBranchIdx)
  let da := getDayStemBranch year month day
  let hr := getHourStemBranch da.1 hourBranchIdx
  ⟨yr, mo, da, hr⟩

end Part003

namespace Fengshui

/-- One palace entry of `calcFlyingStars`: grid coordinates and the star
number; the descriptive fields spread from `FLYING_STARS` (name, element,
colour, …) are presentational and omitted. -/
structure Palace where
  row : Int
  col : Int
  star : Int
deriving DecidableEq, Repr

/-- The eight non-centre palace coordinates in traversal order
(fengshui-calc.js lines 263-272), exactly as written in the source —
including the `row: 3` entries. -/
def positions : List (Int × Int) :=
  [(2, 1), (3, 0), (3, 1), (3, 2), (0, 2), (0, 1), (0, 0), (1, 2)]

/-- The forward-flight loop of `calcFlyingStars` (fengshui-calc.js lines
276-288): step the star by one, wrapping 9 to 1, at each palace. -/
def flySteps : Int → List (Int × Int) → List Palace
  | _, [] => []
  | cur, p :: rest =>
    let nxt := if cur ≥ 9 then 1 else cur + 1
    ⟨p.1, p.2, nxt⟩ :: flySteps nxt rest

/-- `calcFlyingStars(year)` (fengshui-calc.js lines 237-291): choose the
centre star by the 20-year epochs (≥2024 → 9, ≥2004 → 8, else 7), place it
at `(1, 1)`, then fly forward over the eight listed palaces. -/
def calcFlyingStars (year : Int) : List Palace :=
  let centerStar : Int := if year ≥ 2024 then 9 else if year ≥ 2004 then 8 else 7
  ⟨1, 1, centerStar⟩ :: flySteps centerStar positions

end Fengshui

/-! ## Helper lemmas -/

open Zhouyi

section Helpers

/-- A predicate that holds for every element of a list and for the default
value holds for `List.getD` at any index. -/
theorem getD_pred {α : Type} {P : α → Prop} :
    ∀ (l : List α) (i : Nat) (d : α), (∀ x ∈ l, P x) → P d → P (l.getD i d)
  | [], i, d, _, hd => by simpa [List.getD_nil] using hd
  | a :: t, 0, d, h, _ => by simpa using h a (by simp)
  | a :: t, i + 1, d, h, hd => by
    simpa [List.getD_cons_succ] using
      getD_pred t i d (fun x hx => h x (by simp [hx])) hd

/-- Negating the dividend negates the truncated remainder. -/
theorem tmod_neg_dividend (a b : Int) : (-a).tmod b = -(a.tmod b) := by
  rw [Int.tmod_def, Int.tmod_def, Int.neg_tdiv]
  ring

/-- The JavaScript normalisation idiom `((x % 10) + 10) % 10` computes the
mathematical (Euclidean) remainder modulo 10. -/
theorem jsMod_norm_ten (x : Int) : jsMod (jsMod x 10 + 10) 10 = x % 10 := by
  rcases le_or_lt 0 x with hx | hx
  · have h0 : 0 ≤ x % 10 := Int.emod_nonneg x (by norm_num)
    rw [jsMod, jsMod, Int.tmod_eq_emod hx (by norm_num), Int.tmod_eq_emod (by omega) (by norm_num)]
    omega
  · have h1 : x.tmod 10 = -((-x).tmod 10) := by
      rw [tmod_neg_dividend, neg_neg]
    have h2 : (-x).tmod 10 = (-x) % 10 := Int.tmod_eq_emod (by omega) (by norm_num)
    have h0 : 0 ≤ (-x) % 10 := Int.emod_nonneg _ (by norm_num)
    have h3 : (-x) % 10 < 10 := Int.emod_lt_of_pos _ (by norm_num)
    rw [jsMod, jsMod, h1, h2, Int.tmod_eq_emod (by omega) (by norm_num)]
    omega

/-- The JavaScript normalisation idiom `((x % 12) + 12) % 12` computes the
mathematical (Euclidean) remainder modulo 12. -/
theorem jsMod_norm_twelve (x : Int) : jsMod (jsMod x 12 + 12) 12 = x % 12 := by
  rcases le_or_lt 0 x with hx | hx
  · have h0 : 0 ≤ x % 12 := Int.emod_nonneg x (by norm_num)
    rw [jsMod, jsMod, Int.tmod_eq_emod hx (by norm_num), Int.tmod_eq_emod (by omega) (by norm_num)]
    omega
  · have h1 : x.tmod 12 = -((-x).tmod 12) := by
      rw [tmod_neg_dividend, neg_neg]
    have h2 : (-x).tmod 12 = (-x) % 12 := Int.tmod_eq_emod (by omega) (by norm_num)
    have h0 : 0 ≤ (-x) % 12 := Int.emod_nonneg _ (by norm_num)
    have h3 : (-x) % 12 < 12 := Int.emod_lt_of_pos _ (by norm_num)
    rw [jsMod, jsMod, h1, h2, Int.tmod_eq_emod (by omega) (by norm_num)]
    omega

/-- The JavaScript parity test `x % 2 === 0` agrees with the mathematical
one. -/
theorem jsMod_two_iff (x : Int) : jsMod x 2 = 0 ↔ x % 2 = 0 := by
  rcases le_or_lt 0 x with hx | hx
  · rw [jsMod, Int.tmod_eq_emod hx (by norm_num)]
  · have h1 : x.tmod 2 = -((-x).tmod 2) := by rw [tmod_neg_dividend, neg_neg]
    have h2 : (-x).tmod 2 = (-x) % 2 := Int.tmod_eq_emod (by omega) (by norm_num)
    rw [jsMod, h1, h2]
    omega

/-- A truncated remainder modulo 10 preserves parity. -/
theorem tmod_ten_parity (x : Int) : jsMod x 10 % 2 = x % 2 := by
  have h := Int.tmod_def x 10
  rw [jsMod]
  omega

/-- A truncated remainder modulo 12 preserves parity. -/
theorem tmod_twelve_parity (x : Int) : jsMod x 12 % 2 = x % 2 := by
  have h := Int.tmod_def x 12
  rw [jsMod]
  omega

end Helpers

section SolarTermLemmas

open BaziJs

/-- The overflow loop keeps the month inside 1..12. -/
theorem wrapMD_month_bounds (leap : Bool) :
    ∀ (fuel : Nat) (m d : Int), 1 ≤ m → m ≤ 12 →
      1 ≤ (wrapMD leap fuel m d).1 ∧ (wrapMD leap fuel m d).1 ≤ 12
  | 0, m, d, h1, h2 => by simpa [wrapMD] using ⟨h1, h2⟩
  | fuel + 1, m, d, h1, h2 => by
    rw [wrapMD]
    split
    · exact wrapMD_month_bounds leap fuel _ _ (by omega) (by omega)
    · exact ⟨h1, h2⟩

/-- Every month length drawn from the `monthDays` array is positive when
the month is in range. -/
theorem monthDays_pos (leap : Bool) (m : Int) (h1 : 1 ≤ m) (h2 : m ≤ 12) :
    0 < monthDays leap m := by
  unfold monthDays
  interval_cases m <;> rcases leap <;> simp [List.getD]

/-- The overflow loop never increases the day. -/
theorem wrapMD_day_le (leap : Bool) :
    ∀ (fuel : Nat) (m d : Int), 1 ≤ m → m ≤ 12 → (wrapMD leap fuel m d).2 ≤ d
  | 0, m, d, _, _ => by simp [wrapMD]
  | fuel + 1, m, d, h1, h2 => by
    rw [wrapMD]
    split
    · have hmd := monthDays_pos leap m h1 h2
      have := wrapMD_day_le leap fuel (if m + 1 > 12 then 1 else m + 1) (d - monthDays leap m)
        (by omega) (by omega)
      omega
    · omega

/-- The month component computed by `getDaysFromNewYear` always lies in
1..12: the base table months do, and the overflow loop preserves it. -/
theorem gdfny_month_bounds (y : Int) (i : Nat) :
    1 ≤ (getDaysFromNewYear y i).1 ∧ (getDaysFromNewYear y i).1 ≤ 12 := by
  unfold getDaysFromNewYear
  dsimp only
  have hb : 1 ≤ (termBase.getD i (1, 1, 0, 0)).1 ∧ (termBase.getD i (1, 1, 0, 0)).1 ≤ 12 := by
    refine getD_pred (P := fun p => 1 ≤ p.1 ∧ p.1 ≤ 12) termBase i (1, 1, 0, 0) ?_ (by norm_num)
    decide
  exact wrapMD_month_bounds _ 1000 _ _ hb.1 hb.2

/-- Because the overflow loop caps the month at 12, `getSolarTerm` never
takes the `month > 12` branch: the returned year is always the input
year.  This is the dead cross-year adjustment of bazi.js lines 122-125. -/
theorem getSolarTerm_year (y : Int) (i : Nat) : (getSolarTerm y i).year = y := by
  have h := gdfny_month_bounds y i
  simp only [getSolarTerm]
  rw [if_neg (by omega)]

/-- The day component computed by `getDaysFromNewYear` is at most 72 for
every year within 1899..2101 (base day at most 23, floored offset at most
49, and the overflow loop never increases the day). -/
theorem gdfny_day_le (y : Int) (i : Nat) (hy1 : 1899 ≤ y) (hy2 : y ≤ 2101) :
    (getDaysFromNewYear y i).2.1 ≤ 72 := by
  unfold getDaysFromNewYear
  dsimp only
  have hb : 1 ≤ (termBase.getD i (1, 1, 0, 0)).1 ∧ (termBase.getD i (1, 1, 0, 0)).1 ≤ 12 := by
    refine getD_pred (P := fun p => 1 ≤ p.1 ∧ p.1 ≤ 12) termBase i (1, 1, 0, 0) ?_ (by norm_num)
    decide
  have hday : (termBase.getD i (1, 1, 0, 0)).2.1 ≤ 23 := by
    refine getD_pred (P := fun p => p.2.1 ≤ 23) termBase i (1, 1, 0, 0) ?_ (by norm_num)
    decide
  have hoff : termOffsets4.getD i 0 ≤ 239600 := by
    refine getD_pred (P := fun x => x ≤ 239600) termOffsets4 i 0 ?_ (by norm_num)
    decide
  have hwrap := wrapMD_day_le (isLeapJS y) 1000
    (termBase.getD i (1, 1, 0, 0)).1
    ((termBase.getD i (1, 1, 0, 0)).2.1 +
      ((y - 2000) * 2422 + (y - 2000) * 2 + termOffsets4.getD i 0) / 10000)
    hb.1 hb.2
  omega

end SolarTermLemmas

/-! ## Claim theorems -/

/-- Claim C1, amended: for every year (in particular every year in
1900..2100) `getSolarTerms` returns exactly 24 terms, and every returned
term carries the input year itself — the `year + 1` adjustment of bazi.js
lines 122-125 is dead code because the overflow loop caps the month at
12.  The strict chronological ordering asserted by the original claim
fails; see the counterexample. -/
theorem claim1_solar_terms_amended (y : Int) :
    (BaziJs.getSolarTermsList y).length = 24 ∧
    ((BaziJs.getSolarTermsList y).all fun t => t.year == y) = true := by
  refine ⟨by simp [BaziJs.getSolarTermsList], ?_⟩
  rw [List.all_eq_true]
  intro t ht
  obtain ⟨i, _, rfl⟩ := List.mem_map.mp ht
  simp [getSolarTerm_year]

/-- Claim C1, counterexample: at year 2000 the 24 returned timestamps are
not in strictly increasing chronological order (the term listed second,
大寒, is computed as Feb 9 09:00, after the term listed third, 立春,
Feb 7 03:14), and 冬至 — whose computed date wraps past the Gregorian
year boundary to Jan 12 — carries year 2000, not the adjusted
year 2001. -/
theorem claim1_solar_terms_counterexample :
    (BaziJs.getSolarTermsList 2000).getD 1 ⟨0, 0, 0, 0, 0⟩ = ⟨2000, 2, 9, 9, 0⟩ ∧
    (BaziJs.getSolarTermsList 2000).getD 2 ⟨0, 0, 0, 0, 0⟩ = ⟨2000, 2, 7, 3, 14⟩ ∧
    ¬ BaziJs.termKey ((BaziJs.getSolarTermsList 2000).getD 1 ⟨0, 0, 0, 0, 0⟩) <
        BaziJs.termKey ((BaziJs.getSolarTermsList 2000).getD 2 ⟨0, 0, 0, 0, 0⟩) ∧
    BaziJs.getSolarTerm 2000 23 = ⟨2000, 1, 12, 0, 28⟩ := by decide

/-- Claim C4, counterexample: the day pillar computed by bazi.js
`calcBaziPillars` (via its `getJulianDay`, whose floored value is one day
short) maps the reference date 2000-01-07 to stem 9 / branch 11, not to
jiazi (0, 0). -/
theorem claim4_day_anchor_counterexample :
    (BaziJs.calcBaziPillars 2000 1 7 0 Gender.male).pillars.dayP ≠ (0, 0) := by decide

/-- Claim C4, amended: part_003's `getDayStemBranch` and part_003's later
`calcBaziPillars` day computation both map 2000-01-07 to jiazi (0, 0) as
the claim states (and, being pure functions, are trivially deterministic),
but the bazi.js `calcBaziPillars` revision maps the same date to
stem 9 / branch 11 because its `getJulianDay` returns the midnight value
`JDN - 0.5`, whose floor is one less than the integer Julian Day Number
the `+49`/`+1` offsets were calibrated for. -/
theorem claim4_day_anchor_amended :
    Part003.getDayStemBranch 2000 1 7 = (0, 0) ∧
    Part003.dayPillar 2000 1 7 = (0, 0) ∧
    (BaziJs.calcBaziPillars 2000 1 7 0 Gender.male).pillars.dayP = (9, 11) := by decide

/-- Claim C5: the two Julian-day revisions are incompatible — there is a
Gregorian date (2000-01-07) at which the day pillar computed through
bazi.js `getJulianDay` with the `+49`/`+1` offsets differs from the day
pillar of part_003's `getDayStemBranch` and from the one built on
part_003's integer `getJulianDay`. -/
theorem claim5_julian_revisions_diverge :
    ∃ y m d : Int,
      (BaziJs.calcBaziPillars y m d 0 Gender.male).pillars.dayP ≠
        Part003.getDayStemBranch y m d ∧
      (BaziJs.calcBaziPillars y m d 0 Gender.male).pillars.dayP ≠
        Part003.dayPillar y m d :=
  ⟨2000, 1, 7, by decide, by decide⟩

/-- Claim C8: the annual flying-star centre star follows the 20-year
epochs exactly — 7 for 1984..2003, 8 for 2004..2023 and 9 for 2024..2043
(the first listed palace of `calcFlyingStars` is the centre). -/
theorem claim8_flying_star_epochs (yr : Int) :
    (1984 ≤ yr → yr ≤ 2003 →
      ((Fengshui.calcFlyingStars yr).head?.map Fengshui.Palace.star) = some 7) ∧
    (2004 ≤ yr → yr ≤ 2023 →
      ((Fengshui.calcFlyingStars yr).head?.map Fengshui.Palace.star) = some 8) ∧
    (2024 ≤ yr → yr ≤ 2043 →
      ((Fengshui.calcFlyingStars yr).head?.map Fengshui.Palace.star) = some 9) := by
  refine ⟨fun h1 h2 => ?_, fun h1 h2 => ?_, fun h1 h2 => ?_⟩ <;>
    simp only [Fengshui.calcFlyingStars, List.head?_cons, Option.map_some'] <;>
      (refine congrArg some ?_) <;> split_ifs <;> omega

/-- Claim C8, witness: the epoch rule evaluated at the boundary years
2003, 2004 and 2024 named by the claim. -/
theorem claim8_flying_star_witness :
    ((Fengshui.calcFlyingStars 2003).head?.map Fengshui.Palace.star = some 7) ∧
    ((Fengshui.calcFlyingStars 2004).head?.map Fengshui.Palace.star = some 8) ∧
    ((Fengshui.calcFlyingStars 2024).head?.map Fengshui.Palace.star = some 9) :=
  ⟨(claim8_flying_star_epochs 2003).1 (by norm_num) (by norm_num),
   (claim8_flying_star_epochs 2004).2.1 (by norm_num) (by norm_num),
   (claim8_flying_star_epochs 2024).2.2 (by norm_num) (by norm_num)⟩

/-- Claim C9, counterexample: a request with month 13 — outside the
supported domain — is not rejected: the bazi entry point produces a full
chart for it, because `calcBazi` validates only the year. -/
theorem claim9_validation_counterexample :
    (BaziJs.calcBazi 2000 13 1 0 Gender.male).isSome = true := by decide

/-- Claim C9, amended: the bazi entry point rejects a request (producing
no chart at all) exactly when the year lies outside 1900..2100; month,
day and hour are never validated and any values for them produce a
chart. -/
theorem claim9_validation_amended (y m d h : Int) (g : Gender) :
    BaziJs.calcBazi y m d h g = none ↔ (y < 1900 ∨ y > 2100) := by
  unfold BaziJs.calcBazi
  split_ifs with hc
  · exact iff_of_true rfl (by omega)
  · exact iff_of_false (by simp) (by omega)

/-- Claim C10 (code bug): at the failing input year 2024 the nine palace
entries of `calcFlyingStars` do carry each star 1..9 exactly once, but
their coordinates do not tile the 3×3 grid the function documents: three
entries sit at row 3, outside the grid, and the cells (1,0), (2,0) and
(2,2) are never produced — so the renderer's row 0..2 × column 0..2 loop
leaves three cells empty. -/
theorem claim10_flying_star_grid :
    (Fengshui.calcFlyingStars 2024).length = 9 ∧
    List.Perm ((Fengshui.calcFlyingStars 2024).map Fengshui.Palace.star)
      [1, 2, 3, 4, 5, 6, 7, 8, 9] ∧
    (∃ p ∈ Fengshui.calcFlyingStars 2024, p.row = 3) ∧
    (∀ p ∈ Fengshui.calcFlyingStars 2024, ¬(p.row = 1 ∧ p.col = 0)) ∧
    (∀ p ∈ Fengshui.calcFlyingStars 2024, ¬(p.row = 2 ∧ p.col = 0)) ∧
    (∀ p ∈ Fengshui.calcFlyingStars 2024, ¬(p.row = 2 ∧ p.col = 2)) := by decide

section ParityHelpers

/-- Elements and default of the five-tiger table are even, at least 0 and
at most 8. -/
theorem fiveTigerBase_props (x : Int) :
    0 ≤ BaziJs.fiveTigerBase x ∧ BaziJs.fiveTigerBase x ≤ 8 ∧
      BaziJs.fiveTigerBase x % 2 = 0 := by
  refine getD_pred (P := fun v => 0 ≤ v ∧ v ≤ 8 ∧ v % 2 = 0) _ _ _ ?_ (by norm_num)
  decide

/-- Elements and default of the five-rat table are even. -/
theorem fiveRatBase_even (x : Int) : BaziJs.fiveRatBase x % 2 = 0 := by
  refine getD_pred (P := fun v => v % 2 = 0) _ _ _ ?_ (by norm_num)
  decide

/-- Elements and default of part_003's five-tiger base table are even. -/
theorem wuhuBase_even (i : Nat) : Part003.WUHU_BASES.getD i 0 % 2 = 0 := by
  refine getD_pred (P := fun v => v % 2 = 0) _ _ _ ?_ (by norm_num)
  decide

/-- Elements and default of part_003's five-rat base table are even. -/
theorem wushuBase_even (i : Nat) : Part003.WUSHU_BASES.getD i 0 % 2 = 0 := by
  refine getD_pred (P := fun v => v % 2 = 0) _ _ _ ?_ (by norm_num)
  decide

/-- Parity of the year- and day-pillar pattern: a value normalised modulo
10 and the same value normalised modulo 12 have the same parity. -/
theorem norm_pair_parity (x : Int) :
    (jsMod (jsMod x 10 + 10) 10 - jsMod (jsMod x 12 + 12) 12) % 2 = 0 := by
  rw [jsMod_norm_ten, jsMod_norm_twelve]
  omega

/-- Parity of the day-pillar offsets: the `+49` stem and `+1` branch
shifts preserve the shared parity. -/
theorem day_pair_parity (jd : Int) :
    (jsMod (jsMod (jd + 49) 10 + 10) 10 - jsMod (jsMod (jd + 1) 12 + 12) 12) % 2 = 0 := by
  rw [jsMod_norm_ten, jsMod_norm_twelve]
  omega

/-- Parity of the bazi.js month pillar: an even base plus the month index
modulo 10 matches the parity of the month index plus 2 modulo 12. -/
theorem month_pair_parity (e x : Int) (he : e % 2 = 0) :
    (jsMod (e + x) 10 - jsMod (x + 2) 12) % 2 = 0 := by
  have h1 := tmod_ten_parity (e + x)
  have h2 := tmod_twelve_parity (x + 2)
  omega

/-- Parity of the hour pillar: an even base plus the hour branch modulo 10
matches the parity of the hour branch. -/
theorem hour_pair_parity (e x : Int) (he : e % 2 = 0) :
    (jsMod (e + x) 10 - x) % 2 = 0 := by
  have h1 := tmod_ten_parity (e + x)
  omega

/-- Parity of the part_003 month pillar: an even base plus the branch
offset `(branch - 2 + 12) % 12` modulo 10 matches the parity of the
branch index. -/
theorem p3_month_pair_parity (e bi : Int) (he : e % 2 = 0) :
    (jsMod (e + jsMod (bi - 2 + 12) 12) 10 - bi) % 2 = 0 := by
  have h1 := tmod_ten_parity (e + jsMod (bi - 2 + 12) 12)
  have h2 := tmod_twelve_parity (bi - 2 + 12)
  omega

end ParityHelpers

/-- Claim C7: every pillar produced by the chart computation — in both the
bazi.js revision and part_003's jieqi-table revision (for every possible
term table) — satisfies the sexagenary parity invariant
`(stemIndex - branchIndex) % 2 = 0`. -/
theorem claim7_pillar_parity (y m d hour : Int) (g : Gender)
    (terms : List Zhouyi.TermDate) (hb : Int) :
    ((BaziJs.calcBaziPillars y m d hour g).pillars.yearP.1 -
        (BaziJs.calcBaziPillars y m d hour g).pillars.yearP.2) % 2 = 0 ∧
    ((BaziJs.calcBaziPillars y m d hour g).pillars.monthP.1 -
        (BaziJs.calcBaziPillars y m d hour g).pillars.monthP.2) % 2 = 0 ∧
    ((BaziJs.calcBaziPillars y m d hour g).pillars.dayP.1 -
        (BaziJs.calcBaziPillars y m d hour g).pillars.dayP.2) % 2 = 0 ∧
    ((BaziJs.calcBaziPillars y m d hour g).pillars.hourP.1 -
        (BaziJs.calcBaziPillars y m d hour g).pillars.hourP.2) % 2 = 0 ∧
    ((Part003.calcBaziPillars terms y m d hb).yearP.1 -
        (Part003.calcBaziPillars terms y m d hb).yearP.2) % 2 = 0 ∧
    ((Part003.calcBaziPillars terms y m d hb).monthP.1 -
        (Part003.calcBaziPillars terms y m d hb).monthP.2) % 2 = 0 ∧
    ((Part003.calcBaziPillars terms y m d hb).dayP.1 -
        (Part003.calcBaziPillars terms y m d hb).dayP.2) % 2 = 0 ∧
    ((Part003.calcBaziPillars terms y m d hb).hourP.1 -
        (Part003.calcBaziPillars terms y m d hb).hourP.2) % 2 = 0 := by
  refine ⟨?_, ?_, ?_, ?_, ?_, ?_, ?_, ?_⟩
  · simp only [BaziJs.calcBaziPillars, BaziJs.getYearFromSolarTerm]
    exact norm_pair_parity _
  · simp only [BaziJs.calcBaziPillars, BaziJs.getMonthFromSolarTerm]
    exact month_pair_parity _ _ (fiveTigerBase_props _).2.2
  · simp only [BaziJs.calcBaziPillars]
    exact day_pair_parity _
  · simp only [BaziJs.calcBaziPillars]
    exact hour_pair_parity _ _ (fiveRatBase_even _)
  · simp only [Part003.calcBaziPillars, Part003.getYearStemBranch]
    exact norm_pair_parity _
  · simp only [Part003.calcBaziPillars, Part003.getMonthStemBranch]
    exact p3_month_pair_parity _ _ (wuhuBase_even _)
  · simp only [Part003.calcBaziPillars, Part003.getDayStemBranch]
    exact norm_pair_parity _
  · simp only [Part003.calcBaziPillars, Part003.getHourStemBranch]
    exact hour_pair_parity _ _ (wushuBase_even _)

section MonthIndexHelpers

set_option maxHeartbeats 1600000 in
/-- The month index produced by the decision chain is nonnegative whenever
the input month is at least 1. -/
theorem termToMonthIndex_nonneg (m : Int) (t : Option Nat) (hm : 1 ≤ m) :
    0 ≤ BaziJs.termToMonthIndex m t := by
  unfold BaziJs.termToMonthIndex
  omega

end MonthIndexHelpers

/-- Claim C2: the year pillar follows the 立春 rule.  For bazi.js
`getYearFromSolarTerm`, the effective year is the input year, or the
previous year exactly when the birth date key is strictly below the 立春
date key of the computed term table, and the stem/branch indices are
`(actualYear - 4) mod 10` and `(actualYear - 4) mod 12` (mathematical
remainders).  part_003's `getYearStemBranch` follows the same rule for
every possible jieqi table, with its finer before-立春 test that also
compares the start minute of the birth hour-branch when one is given. -/
theorem claim2_year_pillar_rule (y m d : Int) :
    ((BaziJs.getYearFromSolarTerm y m d).actualYear =
      if y * 10000 + m * 100 + d < BaziJs.tdNum (BaziJs.getSolarTerm y 2) then y - 1 else y) ∧
    (BaziJs.getYearFromSolarTerm y m d).yearStemIdx =
      ((BaziJs.getYearFromSolarTerm y m d).actualYear - 4) % 10 ∧
    (BaziJs.getYearFromSolarTerm y m d).yearBranchIdx =
      ((BaziJs.getYearFromSolarTerm y m d).actualYear - 4) % 12 ∧
    ∀ (terms : List Zhouyi.TermDate) (hb : Option Int),
      Part003.getYearStemBranch terms y m d hb =
        (let lichun := terms.getD 0 ⟨0, 0, 0, 0, 0⟩
         let birthMinute := match hb with
           | some i => Part003.HOUR_START.getD i.toNat 0 * 60
           | none => 0
         let bornBefore :=
           m < lichun.month ∨ (m = lichun.month ∧ d < lichun.day) ∨
             (m = lichun.month ∧ d = lichun.day ∧ hb.isSome ∧
               birthMinute < lichun.hour * 60 + lichun.minute)
         (((if bornBefore then y - 1 else y) - 4) % 10,
          ((if bornBefore then y - 1 else y) - 4) % 12)) := by
  refine ⟨?_, ?_, ?_, ?_⟩
  · simp only [BaziJs.getYearFromSolarTerm, BaziJs.tdNum]
  · simp only [BaziJs.getYearFromSolarTerm]
    exact jsMod_norm_ten _
  · simp only [BaziJs.getYearFromSolarTerm]
    exact jsMod_norm_twelve _
  · intro terms hb
    simp only [Part003.getYearStemBranch]
    rw [jsMod_norm_ten, jsMod_norm_twelve]

/-- Claim C3, counterexample: 2000-02-08 lies on or after the computed
立春 of year 2000 (Feb 7, date key 20000207) and strictly before the
computed 惊蛰 (Mar 10, date key 20000310), yet the month pillar's branch
index is 1 (丑, the ox), not 2 (寅, the tiger): the in-year scan stops at
大寒 — computed as Feb 9, after 立春 — so the previous term found is
小寒 and the winter month index 11 is used. -/
theorem claim3_month_pillar_counterexample :
    BaziJs.tdNum (BaziJs.getSolarTerm 2000 2) ≤ 20000208 ∧
    (20000208 : Int) < BaziJs.tdNum (BaziJs.getSolarTerm 2000 4) ∧
    (BaziJs.getMonthFromSolarTerm 2000 2 8).monthBranchIdx ≠ 2 := by decide

/-- Claim C3, amended: the month pillar of `getMonthFromSolarTerm` is
driven by the term index that `getNearestSolarTerm` reports as previous
(which, because the computed term dates are not chronologically ordered,
is not always the most recent sectional term — see the counterexample):
the stem is the five-tiger base for `(year - 4) mod 10` plus the month
index, modulo 10, the canonical branch index is the month index plus 2,
modulo 12, and whenever the previous term is 立春 the branch is the tiger
(index 2). -/
theorem claim3_month_pillar_amended (y m d : Int) (hm : 1 ≤ m) :
    (BaziJs.getMonthFromSolarTerm y m d).monthStemIdx =
      (BaziJs.fiveTigerBase ((y - 4) % 10) +
        BaziJs.termToMonthIndex m (BaziJs.getNearestSolarTerm y m d).prevTerm) % 10 ∧
    (BaziJs.getMonthFromSolarTerm y m d).monthBranchIdx =
      (BaziJs.termToMonthIndex m (BaziJs.getNearestSolarTerm y m d).prevTerm + 2) % 12 ∧
    ((BaziJs.getNearestSolarTerm y m d).prevTerm = some 2 →
      (BaziJs.getMonthFromSolarTerm y m d).monthBranchIdx = 2) := by
  have hmi := termToMonthIndex_nonneg m (BaziJs.getNearestSolarTerm y m d).prevTerm hm
  have hbase := fiveTigerBase_props ((y - 4) % 10)
  refine ⟨?_, ?_, ?_⟩
  · simp only [BaziJs.getMonthFromSolarTerm]
    rw [jsMod_norm_ten, jsMod, Int.tmod_eq_emod (by omega) (by norm_num)]
  · simp only [BaziJs.getMonthFromSolarTerm]
    rw [jsMod, Int.tmod_eq_emod (by omega) (by norm_num)]
  · intro h
    have h0 : BaziJs.termToMonthIndex m (some 2) = 0 := rfl
    simp only [BaziJs.getMonthFromSolarTerm, h, h0]
    decide

/-- Claim C3, witness for the amended statement: at 2000-02-10 the scan
does report 立春 as the previous term, and the month branch is the tiger
(canonical index 2). -/
theorem claim3_month_pillar_witness :
    (BaziJs.getMonthFromSolarTerm 2000 2 10).monthBranchIdx = 2 :=
  (claim3_month_pillar_amended 2000 2 10 (by norm_num)).2.2 (by decide)

section DaYunHelpers

open BaziJs

/-- `getSolarTerm` written out: the year field is the input year and the
remaining fields come from `getDaysFromNewYear`. -/
theorem getSolarTerm_eq (y : Int) (i : Nat) :
    getSolarTerm y i =
      ⟨y, (getDaysFromNewYear y i).1, (getDaysFromNewYear y i).2.1,
        (getDaysFromNewYear y i).2.2.1, (getDaysFromNewYear y i).2.2.2⟩ := by
  have h := gdfny_month_bounds y i
  simp only [getSolarTerm]
  rw [if_neg (by omega)]

/-- The in-year scan never loses a previous term it was given. -/
theorem scanTerms_fst_isSome (dn : Int) :
    ∀ (l : List Zhouyi.TermDate) (i : Nat) (p : Nat × Zhouyi.TermDate),
      (scanTerms dn i l (some p)).1.isSome = true
  | [], _, _ => rfl
  | td :: rest, i, p => by
    rw [scanTerms]
    split
    · exact scanTerms_fst_isSome dn rest (i + 1) (i, td)
    · rfl

/-- For a supported birth input the previous-year check always finds a
previous term: the 大雪 entry of `year - 1` has a date key strictly below
every date key of the input year. -/
theorem prevYearScan_isSome (y m d : Int) (hy1 : 1900 ≤ y) (hy2 : y ≤ 2100)
    (hm : 1 ≤ m) (hd : 1 ≤ d) :
    (prevYearScan y (y * 10000 + m * 100 + d)).isSome = true := by
  have h22m := gdfny_month_bounds (y - 1) 22
  have h22d := gdfny_day_le (y - 1) 22 (by omega) (by omega)
  unfold prevYearScan
  dsimp only
  rw [getSolarTerm_eq (y - 1) 22, getSolarTerm_eq (y - 1) 23]
  dsimp only
  simp only [ite_self]
  split
  · rfl
  · split
    · rfl
    · exfalso
      omega

/-- For a supported birth input `getNearestSolarTerm` reports a previous
term date. -/
theorem nearTerms_prevDate_isSome (y m d : Int) (hy1 : 1900 ≤ y) (hy2 : y ≤ 2100)
    (hm : 1 ≤ m) (hd : 1 ≤ d) :
    (getNearestSolarTerm y m d).prevDate.isSome = true := by
  have hp := prevYearScan_isSome y m d hy1 hy2 hm hd
  obtain ⟨p, hp⟩ := Option.isSome_iff_exists.mp hp
  unfold getNearestSolarTerm
  dsimp only
  rw [hp]
  have hs := scanTerms_fst_isSome (y * 10000 + m * 100 + d) (getSolarTermsList y) 0 p
  obtain ⟨q, hq⟩ := Option.isSome_iff_exists.mp hs
  rw [hq]
  rfl

/-- `getNearestSolarTerm` always reports a next term date (the in-year
scan result or the 小寒 fallback of the next year). -/
theorem nearTerms_nextDate_isSome (y m d : Int) :
    (getNearestSolarTerm y m d).nextDate.isSome = true := rfl

end DaYunHelpers

/-- Claim C6: for every supported input, the luck-pillar onset age
returned by `calcDaYunPrecise` lies in 1..20, and the direction is
forward exactly when the year-stem parity matches the gender (even stem
with male, odd stem with female). -/
theorem claim6_dayun_range_direction (y m d h mi ysi : Int) (g : Gender)
    (hy1 : 1900 ≤ y) (hy2 : y ≤ 2100) (hm : 1 ≤ m) (hd : 1 ≤ d) :
    1 ≤ (BaziJs.calcDaYunPrecise y m d h mi g ysi).startAge ∧
    (BaziJs.calcDaYunPrecise y m d h mi g ysi).startAge ≤ 20 ∧
    ((BaziJs.calcDaYunPrecise y m d h mi g ysi).forward = true ↔
      (ysi % 2 = 0 ↔ g = Gender.male)) := by
  obtain ⟨pd, hpd⟩ := Option.isSome_iff_exists.mp
    (nearTerms_prevDate_isSome y m d hy1 hy2 hm hd)
  obtain ⟨nd, hnd⟩ := Option.isSome_iff_exists.mp (nearTerms_nextDate_isSome y m d)
  unfold BaziJs.calcDaYunPrecise
  dsimp only
  rw [hpd, hnd]
  dsimp only
  refine ⟨?_, ?_, ?_⟩
  · split <;> omega
  · split <;> omega
  · cases g <;> simp [jsMod_two_iff]

/-- Claim C6, witness: the range and direction rule evaluated at the
concrete input 1990-05-15 00:00, male, year stem 6. -/
theorem claim6_dayun_witness :
    1 ≤ (BaziJs.calcDaYunPrecise 1990 5 15 0 0 Gender.male 6).startAge ∧
    (BaziJs.calcDaYunPrecise 1990 5 15 0 0 Gender.male 6).startAge ≤ 20 ∧
    ((BaziJs.calcDaYunPrecise 1990 5 15 0 0 Gender.male 6).forward = true ↔
      ((6 : Int) % 2 = 0 ↔ Gender.male = Gender.male)) :=
  claim6_dayun_range_direction 1990 5 15 0 0 6 Gender.male (by norm_num) (by norm_num)
    (by norm_num) (by norm_num)
